import Mathlib

/-! Shallow embedding of `lib/ansible/playbook/task_include.py` (class
`TaskInclude`) together with proofs about its options validation,
raw-parameter normalization, invalid-attribute preprocessing, copy
semantics and parent-block construction. -/

set_option autoImplicit false

namespace TaskIncludeVerif

/-- Python-style values as they occur in a task's `args` mapping and in raw
task data: `None`, booleans, integers, strings, lists, dicts (modelled as
insertion-ordered association lists, as CPython dicts are), and the
`ansible.utils.sentinel.Sentinel` marker class (which is not under `src/`;
per the spec it is the "unset" sentinel for defaulted attributes). -/
inductive Value where
  | vnone : Value
  | vbool : Bool → Value
  | vint : Int → Value
  | vstr : String → Value
  | vlist : List Value → Value
  | vdict : List (String × Value) → Value
  | vsentinel : Value

/-- Python truthiness (`bool(v)`): `None`, `False`, `0`, the empty string,
the empty list and the empty dict are falsy; the `Sentinel` class object is
truthy. -/
def Value.truthy : Value → Bool
  | .vnone => false
  | .vbool b => b
  | .vint n => n != 0
  | .vstr s => s != ""
  | .vlist xs => !xs.isEmpty
  | .vdict xs => !xs.isEmpty
  | .vsentinel => true

/-- Python `isinstance(v, dict)`. -/
def Value.isDict : Value → Bool
  | .vdict _ => true
  | _ => false

/-- Identity test against the `Sentinel` marker class (`v is Sentinel`). -/
def Value.isSentinel : Value → Bool
  | .vsentinel => true
  | _ => false

/-- Name of the Python type of a value, as `type(v).__name__`; CPython
interpolates `type(v)` inside a "<class ...>" wrapper not reproduced here. -/
def pyTypeName : Value → String
  | .vnone => "NoneType"
  | .vbool _ => "bool"
  | .vint _ => "int"
  | .vstr _ => "str"
  | .vlist _ => "list"
  | .vdict _ => "dict"
  | .vsentinel => "Sentinel"

/-- A Python dict with string keys, in insertion order. A real dict has no
duplicate keys; theorems that depend on uniqueness carry a `Nodup`
hypothesis on the key list. -/
abbrev Args := List (String × Value)

/-- Python `d.get(k)` / `d[k]`: the value at the (unique) matching key. -/
def Args.get : Args → String → Option Value
  | [], _ => none
  | p :: rest, k => if p.1 == k then some p.2 else Args.get rest k

/-- Keys of the dict, in insertion order. -/
def Args.keys (a : Args) : List String := a.map Prod.fst

/-- The dict as Python `d.pop(k, ...)` leaves it: the matching entry
removed, all other entries in order. -/
def Args.erase : Args → String → Args
  | [], _ => []
  | p :: rest, k => if p.1 == k then rest else p :: Args.erase rest k

/-- Python `d.pop(k, None)`: the popped value (`None` when absent) together
with the remaining dict. -/
def Args.pop (a : Args) (k : String) : Option Value × Args :=
  (Args.get a k, Args.erase a k)

/-- Python `d[k] = v`: replace the value at `k` in place, or append the new
key at the end, preserving insertion order. -/
def Args.set : Args → String → Value → Args
  | [], k, v => [(k, v)]
  | p :: rest, k, v => if p.1 == k then (k, v) :: rest else p :: Args.set rest k v

/-- Class attribute `TaskInclude.BASE` (task_include.py line 41). -/
def BASE : List String := ["file", "_raw_params"]

/-- Class attribute `TaskInclude.OTHER_ARGS` (line 42). -/
def OTHER_ARGS : List String := ["apply"]

/-- Class attribute `TaskInclude.VALID_ARGS = BASE.union(OTHER_ARGS)`
(line 43). -/
def VALID_ARGS : List String := BASE ++ OTHER_ARGS

/-- Class attribute `TaskInclude.VALID_INCLUDE_KEYWORDS` (lines 44-46). -/
def VALID_INCLUDE_KEYWORDS : List String :=
  ["action", "args", "collections", "debugger", "ignore_errors", "loop", "loop_control",
   "loop_with", "name", "no_log", "register", "run_once", "tags", "timeout", "vars", "when"]

/-- Modelled from the spec: `ansible.constants._ACTION_ALL_PROPER_INCLUDE_IMPORT_TASKS`
lives in `ansible/constants.py`, which is not under `src/`; per the spec it
is the include/import-tasks action family (the "include tasks" dynamic and
"import tasks" static variants). -/
def ACTION_ALL_PROPER_INCLUDE_IMPORT_TASKS : List String := ["include_tasks", "import_tasks"]

/-- Modelled from the spec: `ansible.constants._ACTION_INCLUDE_TASKS`, the
dynamic "include tasks" variant alone. -/
def ACTION_INCLUDE_TASKS : List String := ["include_tasks"]

/-- Modelled from the spec: `ansible.constants._ACTION_ALL_INCLUDE_ROLE_TASKS`,
the include/import-role action family. -/
def ACTION_ALL_INCLUDE_ROLE_TASKS : List String := ["include_role", "import_role"]

/-- Errors raised by this module. All four are `AnsibleParserError`s in the
source, distinguished here by the four message templates `task_include.py`
uses (the `obj=` source-context payload is not modelled). -/
inductive Err where
  | invalidOption : String → List String → Err
  | missingTarget : String → Err
  | typeMismatch : String → Err
  | invalidAttribute : String → String → Err
deriving DecidableEq

/-- Message rendering mirroring the percent-format strings of the source
(lines 74, 79, 83, 85 and 114). Python additionally wraps the type of
`typeMismatch` in "<class ...>" and quotes the key of `invalidAttribute`;
that decoration is dropped, the interpolated data is kept. -/
def Err.message : Err → String
  | .invalidOption action keys =>
      "Invalid options for " ++ action ++ ": " ++ String.intercalate "," keys
  | .missingTarget action => "No file specified for " ++ action
  | .typeMismatch ty => "Expected a dict for apply but got " ++ ty ++ " instead"
  | .invalidAttribute key cls => key ++ " is not a valid attribute for a " ++ cls

/-- State of a `TaskInclude` instance as far as this module reads or writes
it: the `action` string and the `args` dict (both inherited from `Task`),
the `statically_loaded` flag set in `__init__` (line 50), and opaque
identifiers standing for the back-references `self._parent._play`,
`self._role`, `self._variable_manager` and `self._loader` that
`build_parent_block` passes to `Block.load`. -/
structure TaskState where
  action : String
  args : Args
  statically_loaded : Bool := false
  parent_play : Nat := 0
  role : Nat := 0
  variable_manager : Nat := 0
  loader : Nat := 0

/-- Truthiness of a `d.get(k)` result (`None` when the key is absent), as
in `if not task.args.get(...)`. -/
def truthyOpt (o : Option Value) : Bool := (o.getD .vnone).truthy

/-- Line 72: `bad_opts = my_arg_names.difference(self.VALID_ARGS)`. The
frozenset is modelled as the key list in insertion order; because CPython
iterates a frozenset of strings in an order that depends on the randomized
hash seed, every place the source enumerates such a set takes an
enumeration parameter `order` that is required (in the theorems) to be a
permutation. -/
def badOpts (a : Args) : List String :=
  (Args.keys a).filter (fun k => !(VALID_ARGS.contains k))

/-- Lines 76-79: fold `file` into `_raw_params` when `_raw_params` is empty
or absent, and fail with the missing-target error when the result is still
empty. The returned state is the task after the in-place `args` mutations,
which happen before any raise. -/
def normalize_raw_params (t : TaskState) : TaskState × Option Err :=
  if !(truthyOpt (Args.get t.args "_raw_params")) then
    let popped := Args.pop t.args "file"
    let newRaw := popped.1.getD .vnone
    let t2 : TaskState := { t with args := Args.set popped.2 "_raw_params" newRaw }
    if !newRaw.truthy then (t2, some (.missingTarget t2.action)) else (t2, none)
  else (t, none)

/-- Lines 81-85: the `apply` checks. `apply` used (non-empty) outside the
dynamic include-tasks action is an invalid option; otherwise a supplied
non-dict `apply` is a type error. -/
def check_apply (t : TaskState) : Option Err :=
  if ((Args.get t.args "apply").getD (.vdict [])).truthy
      && !(ACTION_INCLUDE_TASKS.contains t.action) then
    some (.invalidOption t.action ["apply"])
  else if !((Args.get t.args "apply").getD (.vdict [])).isDict then
    some (.typeMismatch (pyTypeName ((Args.get t.args "apply").getD (.vdict []))))
  else none

/-- Lines 62-87, `TaskInclude.check_options`, with the task state threaded
explicitly: the final state (the source mutates `task.args` in place, so
the state on an error is the state at the moment of the raise) together
with the error, if any. `order` supplies the unspecified frozenset
iteration order used on line 74. -/
def check_options_state (order : List String → List String) (t : TaskState) :
    TaskState × Option Err :=
  if !(badOpts t.args).isEmpty && ACTION_ALL_PROPER_INCLUDE_IMPORT_TASKS.contains t.action then
    (t, some (.invalidOption t.action (order (badOpts t.args))))
  else
    match normalize_raw_params t with
    | (t2, some e) => (t2, some e)
    | (t2, none) => (t2, check_apply t2)

/-- `TaskInclude.check_options` as the caller observes it: the validated
(and possibly mutated) task, or the raised error. -/
def check_options (order : List String → List String) (t : TaskState) :
    Except Err TaskState :=
  match check_options_state order t with
  | (t2, none) => .ok t2
  | (_, some e) => .error e

/-- Keys of the raw data outside `VALID_INCLUDE_KEYWORDS` (line 109), again
in insertion order with the set-iteration order supplied separately. -/
def diff_keys (ds : Args) : List String :=
  (Args.keys ds).filter (fun k => !(VALID_INCLUDE_KEYWORDS.contains k))

/-- Value of `ds['action']` as a string. A raw task node always carries an
`action` entry by the time `preprocess_data` runs; a non-string or absent
entry simply fails the family-membership test on line 112. -/
def action_of (ds : Args) : String :=
  match Args.get ds "action" with
  | some (.vstr a) => a
  | _ => ""

/-- Loop body of lines 110-116 over the enumeration of the offending keys:
under strict policy (`C.INVALID_TASK_ATTRIBUTE_FAILED`, modelled from the
spec as the boolean `strict` since `ansible/constants.py` is not under
`src/`) the first offending key raises; otherwise each offending key emits
one warning, collected in order. -/
def preprocess_scan (strict : Bool) (ds : Args) : List String → Except Err (List String)
  | [] => .ok []
  | k :: ks =>
    if !((Args.get ds k).getD .vnone).isSentinel
        && ACTION_ALL_INCLUDE_ROLE_TASKS.contains (action_of ds) then
      if strict then .error (.invalidAttribute k "TaskInclude")
      else (preprocess_scan strict ds ks).map (fun ws => k :: ws)
    else preprocess_scan strict ds ks

/-- Lines 89-118, `TaskInclude.preprocess_data`. The call to the base
entity's `preprocess_data` (line 107) is external to `src/` and is modelled
from the spec as returning the data unchanged for this check. Returns the
(unmodified) data together with the warnings emitted. -/
def preprocess_data (strict : Bool) (order : List String → List String) (ds : Args) :
    Except Err (Args × List String) :=
  (preprocess_scan strict ds (order (diff_keys ds))).map (fun ws => (ds, ws))

/-- Modelled from the spec: the base entity duplication contract
(`Task.copy`, not under `src/`) constructs a fresh entity of the same class
(whose `__init__`, line 50, initializes `statically_loaded` to `False`) and
copies the generic task fields, dropping the parent back-reference when
`exclude_parent` is set. -/
def base_copy (t : TaskState) (exclude_parent : Bool) (_exclude_tasks : Bool) : TaskState :=
  { t with
      statically_loaded := false
      parent_play := if exclude_parent then 0 else t.parent_play }

/-- Lines 120-139, `TaskInclude.copy`: base-entity duplication followed by
copying `statically_loaded` verbatim (line 138). -/
def TaskState.copy (t : TaskState) (exclude_parent : Bool) (exclude_tasks : Bool) :
    TaskState :=
  let new_me := base_copy t exclude_parent exclude_tasks
  { new_me with statically_loaded := t.statically_loaded }

/-- Modelled from the spec: `Block.load` (in `ansible/playbook/block.py`,
not under `src/`) constructs a new structural container from a data
mapping, a play, the generating include, a role and the variable/loader
context; the model records the arguments the call site passes. -/
structure BlockModel where
  data : Args
  play : Nat
  task_include : TaskState
  role : Nat
  variable_manager : Nat
  loader : Nat

/-- What `build_parent_block` returns: a freshly constructed block, or the
directive itself (`p_block = self`), or the `TypeError` CPython would raise
on item assignment into a non-dict truthy `apply` (unreachable after
validation). -/
inductive ParentBlockResult where
  | block : BlockModel → ParentBlockResult
  | selfRef : ParentBlockResult
  | typeError : ParentBlockResult

/-- Lines 141-160, `TaskInclude.build_parent_block`: pop `apply` from
`args`; when it is truthy, inject an empty task list under `block` and
construct the parent `Block` from it; otherwise the directive itself is the
parent. The first component is the directive's state after the pop. -/
def build_parent_block (t : TaskState) : TaskState × ParentBlockResult :=
  let popped := Args.pop t.args "apply"
  let applyAttrs := popped.1.getD (.vdict [])
  let t2 : TaskState := { t with args := popped.2 }
  if applyAttrs.truthy then
    match applyAttrs with
    | .vdict d =>
        (t2, .block
          { data := Args.set d "block" (.vlist [])
            play := t.parent_play
            task_include := t2
            role := t.role
            variable_manager := t.variable_manager
            loader := t.loader })
    | _ => (t2, .typeError)
  else
    (t2, .selfRef)

/-! Helper lemmas about the dict operations and the validation steps. -/

theorem contains_eq_false_of_not_mem {l : List String} {a : String} (h : a ∉ l) :
    l.contains a = false := by
  by_contra hc
  have hc2 : l.contains a = true := by revert hc; cases l.contains a <;> simp
  exact h (List.mem_of_elem_eq_true hc2)

theorem Args.get_set_self (a : Args) (k : String) (v : Value) :
    Args.get (Args.set a k v) k = some v := by
  induction a with
  | nil => simp [Args.set, Args.get]
  | cons p rest ih =>
    by_cases h : p.1 = k
    · simp [Args.set, Args.get, h]
    · simp [Args.set, Args.get, h, ih]

theorem Args.get_set_ne (a : Args) {k k' : String} (v : Value) (h : k' ≠ k) :
    Args.get (Args.set a k v) k' = Args.get a k' := by
  have h' : ¬(k = k') := fun hh => h hh.symm
  induction a with
  | nil => simp [Args.set, Args.get, h']
  | cons p rest ih =>
    by_cases hp : p.1 = k
    · simp [Args.set, Args.get, hp, h']
    · by_cases hp' : p.1 = k'
      · simp [Args.set, Args.get, hp, hp', h]
      · simp [Args.set, Args.get, hp, hp', ih]

theorem Args.get_erase_ne (a : Args) {k k' : String} (h : k' ≠ k) :
    Args.get (Args.erase a k) k' = Args.get a k' := by
  have h' : ¬(k = k') := fun hh => h hh.symm
  induction a with
  | nil => simp [Args.erase, Args.get]
  | cons p rest ih =>
    by_cases hp : p.1 = k
    · simp [Args.erase, Args.get, hp, h']
    · by_cases hp' : p.1 = k'
      · simp [Args.erase, Args.get, hp, hp', h]
      · simp [Args.erase, Args.get, hp, hp', ih]

theorem Args.not_mem_keys_erase {a : Args} {k : String} (h : (Args.keys a).Nodup) :
    k ∉ Args.keys (Args.erase a k) := by
  induction a with
  | nil => simp [Args.erase, Args.keys]
  | cons p rest ih =>
    rw [Args.keys, List.map_cons] at h
    obtain ⟨h1, h2⟩ := List.nodup_cons.mp h
    by_cases hp : p.1 = k
    · subst hp
      simpa [Args.erase, Args.keys] using h1
    · intro hmem
      simp only [Args.erase, beq_iff_eq, hp, if_false] at hmem
      rw [Args.keys, List.map_cons] at hmem
      rcases List.mem_cons.mp hmem with hmem | hmem
      · exact hp hmem.symm
      · exact ih h2 hmem

theorem Args.mem_keys_set {a : Args} {k k' : String} {v : Value}
    (h : k' ∈ Args.keys (Args.set a k v)) : k' = k ∨ k' ∈ Args.keys a := by
  induction a with
  | nil => simpa [Args.set, Args.keys] using h
  | cons p rest ih =>
    by_cases hp : p.1 = k
    · simp only [Args.set, hp, beq_self_eq_true, if_true] at h
      rw [Args.keys, List.map_cons] at h
      rcases List.mem_cons.mp h with h | h
      · exact Or.inl h
      · exact Or.inr (by rw [Args.keys, List.map_cons]; exact List.mem_cons.mpr (Or.inr h))
    · simp only [Args.set, beq_iff_eq, hp, if_false] at h
      rw [Args.keys, List.map_cons] at h
      rcases List.mem_cons.mp h with h | h
      · exact Or.inr (by rw [Args.keys, List.map_cons]; exact List.mem_cons.mpr (Or.inl h))
      · rcases ih h with h2 | h2
        · exact Or.inl h2
        · exact Or.inr (by rw [Args.keys, List.map_cons]; exact List.mem_cons.mpr (Or.inr h2))

theorem badOpts_eq_nil_of_valid {a : Args} (h : ∀ k ∈ Args.keys a, k ∈ VALID_ARGS) :
    badOpts a = [] := by
  apply List.filter_eq_nil_iff.mpr
  intro k hk
  simp
  exact h k hk

theorem step1_cond_false {t : TaskState}
    (h : badOpts t.args = [] ∨ t.action ∉ ACTION_ALL_PROPER_INCLUDE_IMPORT_TASKS) :
    (!(badOpts t.args).isEmpty
      && ACTION_ALL_PROPER_INCLUDE_IMPORT_TASKS.contains t.action) = false := by
  rcases h with h | h
  · simp [h]
  · rw [contains_eq_false_of_not_mem h, Bool.and_false]

theorem check_options_state_of_pass {order : List String → List String} {t : TaskState}
    (h : badOpts t.args = [] ∨ t.action ∉ ACTION_ALL_PROPER_INCLUDE_IMPORT_TASKS) :
    check_options_state order t =
      (match normalize_raw_params t with
        | (t2, some e) => (t2, some e)
        | (t2, none) => (t2, check_apply t2)) := by
  unfold check_options_state
  rw [step1_cond_false h]
  simp

theorem normalize_of_truthy_raw {t : TaskState}
    (h : truthyOpt (Args.get t.args "_raw_params") = true) :
    normalize_raw_params t = (t, none) := by
  simp [normalize_raw_params, h]

theorem normalize_of_file {t : TaskState} {v : Value}
    (hraw : truthyOpt (Args.get t.args "_raw_params") = false)
    (hfile : Args.get t.args "file" = some v) (hv : v.truthy = true) :
    normalize_raw_params t =
      ({ t with args := Args.set (Args.erase t.args "file") "_raw_params" v }, none) := by
  simp [normalize_raw_params, Args.pop, hraw, hfile, hv]

theorem normalize_missing {t : TaskState}
    (hraw : truthyOpt (Args.get t.args "_raw_params") = false)
    (hfile : ((Args.get t.args "file").getD .vnone).truthy = false) :
    normalize_raw_params t =
      ({ t with
          args := Args.set (Args.erase t.args "file") "_raw_params"
            ((Args.get t.args "file").getD .vnone) },
       some (.missingTarget t.action)) := by
  simp [normalize_raw_params, Args.pop, hraw, hfile]

theorem check_apply_ne_missing {t : TaskState} {a : String} :
    check_apply t ≠ some (.missingTarget a) := by
  unfold check_apply
  cases hc : ((Args.get t.args "apply").getD (Value.vdict [])).truthy
      && !ACTION_INCLUDE_TASKS.contains t.action with
  | true => simp [hc]
  | false =>
    cases hd : ((Args.get t.args "apply").getD (Value.vdict [])).isDict with
    | true => simp [hc, hd]
    | false => simp [hc, hd]

/-! Sample task states used by witnesses and counterexamples. -/

/-- Include-tasks directive with one invalid option key and a target. -/
def tW1 : TaskState :=
  { action := "include_tasks", args := [("foo", .vint 1), ("_raw_params", .vstr "x")] }

/-- Include-tasks directive with two invalid option keys `a` and `z` and a
target, used to exhibit the unsorted iteration order. -/
def tX1 : TaskState :=
  { action := "include_tasks",
    args := [("a", .vint 1), ("z", .vint 2), ("_raw_params", .vstr "x.yml")] }

/-- Import-tasks directive with no args at all. -/
def tW3 : TaskState := { action := "import_tasks", args := [] }

/-- Include-tasks directive with an invalid option key and no target. -/
def tX3 : TaskState := { action := "include_tasks", args := [("foo", .vint 1)] }

/-- C7: for every include directive and every combination of the
`exclude_parent` and `exclude_tasks` flags, the copy's `statically_loaded`
equals the original's, with no re-derivation: the base duplication resets
the flag to its constructor default and line 138 copies it verbatim. -/
theorem claim_C7 (t : TaskState) (exclude_parent : Bool) (exclude_tasks : Bool) :
    (TaskState.copy t exclude_parent exclude_tasks).statically_loaded
      = t.statically_loaded :=
  rfl

/-- C1 (amended): for every include directive whose action is in the
include/import-tasks family and whose args contain at least one key outside
VALID_ARGS, `check_options` fails with an `InvalidOption` error whose
message names the action and lists exactly the offending keys, joined by
comma, in the unspecified frozenset iteration order (an arbitrary
permutation of the offending keys) - not necessarily sorted. -/
theorem claim_C1 (order : List String → List String) (t : TaskState)
    (horder : ∀ l, List.Perm (order l) l)
    (ha : t.action ∈ ACTION_ALL_PROPER_INCLUDE_IMPORT_TASKS)
    (hbad : badOpts t.args ≠ []) :
    check_options order t = .error (.invalidOption t.action (order (badOpts t.args))) ∧
    List.Perm (order (badOpts t.args)) (badOpts t.args) ∧
    (Err.invalidOption t.action (order (badOpts t.args))).message =
      "Invalid options for " ++ t.action ++ ": "
        ++ String.intercalate "," (order (badOpts t.args)) := by
  refine ⟨?_, horder _, rfl⟩
  have h1 : (!(badOpts t.args).isEmpty) = true := by simp [hbad]
  have h2 : ACTION_ALL_PROPER_INCLUDE_IMPORT_TASKS.contains t.action = true :=
    List.elem_eq_true_of_mem ha
  simp [check_options, check_options_state, h1, h2, ha]

/-- C1 witness: a concrete run of `claim_C1` on `tW1` under the identity
enumeration order. -/
theorem claim_C1_witness :
    (tW1.action ∈ ACTION_ALL_PROPER_INCLUDE_IMPORT_TASKS ∧ badOpts tW1.args ≠ []) ∧
    (check_options id tW1 = .error (.invalidOption tW1.action (id (badOpts tW1.args))) ∧
      List.Perm (id (badOpts tW1.args)) (badOpts tW1.args) ∧
      (Err.invalidOption tW1.action (id (badOpts tW1.args))).message =
        "Invalid options for " ++ tW1.action ++ ": "
          ++ String.intercalate "," (id (badOpts tW1.args))) :=
  ⟨⟨by decide, by decide⟩,
    claim_C1 id tW1 (fun l => List.Perm.refl l) (by decide) (by decide)⟩

/-- C1 counterexample: the claim as stated requires the offending keys in
sorted order, but the source joins the frozenset in its iteration order,
which is not sorted: under the (admissible, permutation) enumeration
`List.reverse`, the directive `tX1` produces the message
"Invalid options for include_tasks: z,a", whose key list `[z, a]` is not
the sorted `[a, z]`. -/
theorem claim_C1_counterexample :
    check_options List.reverse tX1 =
      .error (.invalidOption "include_tasks" ["z", "a"]) ∧
    List.Perm (List.reverse (badOpts tX1.args)) (badOpts tX1.args) ∧
    (Err.invalidOption "include_tasks" ["z", "a"]).message =
      "Invalid options for include_tasks: z,a" ∧
    (["z", "a"] : List String) ≠ ["a", "z"] :=
  ⟨rfl, List.reverse_perm _, rfl, by decide⟩

/-- C3 (amended): for every include directive that passes the bad-options
check (no keys outside VALID_ARGS, or action outside the include/import-
tasks family) and whose args contain neither a non-empty `_raw_params` nor
a `file` entry, `check_options` fails with the `MissingTarget` ("No file
specified") error naming the directive's action. -/
theorem claim_C3 (order : List String → List String) (t : TaskState)
    (hpass : badOpts t.args = [] ∨ t.action ∉ ACTION_ALL_PROPER_INCLUDE_IMPORT_TASKS)
    (hraw : truthyOpt (Args.get t.args "_raw_params") = false)
    (hfile : Args.get t.args "file" = none) :
    check_options order t = .error (.missingTarget t.action) := by
  unfold check_options
  rw [check_options_state_of_pass hpass]
  rw [normalize_missing hraw (by rw [hfile]; rfl)]

/-- C3 witness: the empty-args import-tasks directive `tW3` fails with the
missing-target error. -/
theorem claim_C3_witness : check_options id tW3 = .error (.missingTarget "import_tasks") :=
  claim_C3 id tW3 (Or.inl rfl) rfl rfl

/-- C3 counterexample: the claim as stated quantifies over every directive
with no target, but a directive whose args also contain an invalid key
fails earlier with `InvalidOption`, not `MissingTarget`. -/
theorem claim_C3_counterexample :
    check_options id tX3 = .error (.invalidOption "include_tasks" ["foo"]) ∧
    Err.invalidOption "include_tasks" ["foo"] ≠ Err.missingTarget "include_tasks" :=
  ⟨rfl, by decide⟩

theorem not_mem_of_contains_eq_false {l : List String} {a : String}
    (h : l.contains a = false) : a ∉ l := by
  simpa using h

theorem check_apply_invalid {t : TaskState} {v : Value}
    (happly : Args.get t.args "apply" = some v)
    (hv : v.truthy = true)
    (hact : ACTION_INCLUDE_TASKS.contains t.action = false) :
    check_apply t = some (.invalidOption t.action ["apply"]) := by
  have hnotmem : t.action ∉ ACTION_INCLUDE_TASKS := not_mem_of_contains_eq_false hact
  unfold check_apply
  rw [happly]
  simp [hv, hnotmem]

theorem check_apply_mismatch {t : TaskState} {v : Value}
    (happly : Args.get t.args "apply" = some v)
    (hnd : v.isDict = false)
    (hok : ACTION_INCLUDE_TASKS.contains t.action = true ∨ v.truthy = false) :
    check_apply t = some (.typeMismatch (pyTypeName v)) := by
  unfold check_apply
  rw [happly]
  rcases hok with h | h
  · have hmem : t.action ∈ ACTION_INCLUDE_TASKS := List.mem_of_elem_eq_true h
    simp [hnd, hmem]
  · simp [h, hnd]

/-- Include-tasks directive whose target arrives through `file`. -/
def tW2 : TaskState := { action := "include_tasks", args := [("file", .vstr "x.yml")] }

/-- Include-tasks directive whose `file` value is the empty (falsy) string. -/
def tX2a : TaskState := { action := "include_tasks", args := [("file", .vstr "")] }

/-- Include-tasks directive with a `file` target and an invalid option key. -/
def tX2b : TaskState :=
  { action := "include_tasks", args := [("file", .vstr "x.yml"), ("foo", .vint 1)] }

/-- C2 (amended): for every include directive that passes the bad-options
check and whose args have an empty/absent `_raw_params` and a `file` entry
with a truthy (non-empty) value, the normalization step succeeds, and
afterwards - also in the state `check_options` leaves behind -
`args['_raw_params']` equals the former `file` value and the key `file` is
no longer present. -/
theorem claim_C2 (order : List String → List String) (t : TaskState) (v : Value)
    (hnd : (Args.keys t.args).Nodup)
    (hpass : badOpts t.args = [] ∨ t.action ∉ ACTION_ALL_PROPER_INCLUDE_IMPORT_TASKS)
    (hraw : truthyOpt (Args.get t.args "_raw_params") = false)
    (hfile : Args.get t.args "file" = some v)
    (hv : v.truthy = true) :
    (normalize_raw_params t).2 = none ∧
    Args.get ((normalize_raw_params t).1).args "_raw_params" = some v ∧
    "file" ∉ Args.keys ((normalize_raw_params t).1).args ∧
    (check_options_state order t).1 = (normalize_raw_params t).1 := by
  have hn := normalize_of_file hraw hfile hv
  refine ⟨by rw [hn], ?_, ?_, ?_⟩
  · rw [hn]
    exact Args.get_set_self _ _ _
  · rw [hn]
    intro hmem
    rcases Args.mem_keys_set hmem with h | h
    · exact absurd h (by decide)
    · exact Args.not_mem_keys_erase hnd h
  · rw [check_options_state_of_pass hpass, hn]

/-- C2 witness: a concrete run of `claim_C2` on `tW2`. -/
theorem claim_C2_witness :
    (normalize_raw_params tW2).2 = none ∧
    Args.get ((normalize_raw_params tW2).1).args "_raw_params" = some (.vstr "x.yml") ∧
    "file" ∉ Args.keys ((normalize_raw_params tW2).1).args ∧
    (check_options_state id tW2).1 = (normalize_raw_params tW2).1 :=
  claim_C2 id tW2 (.vstr "x.yml") (by decide) (Or.inl rfl) rfl rfl rfl

/-- C2 counterexample: the claim as stated covers every directive whose
args contain a `file` entry, but a falsy `file` value makes the step fail
with the missing-target error (`tX2a`), and an invalid option key makes
`check_options` fail before the step, leaving `file` unfolded (`tX2b`). -/
theorem claim_C2_counterexample :
    check_options id tX2a = .error (.missingTarget "include_tasks") ∧
    check_options id tX2b = .error (.invalidOption "include_tasks" ["foo"]) ∧
    Args.get ((check_options_state id tX2b).1).args "file" = some (.vstr "x.yml") :=
  ⟨rfl, rfl, rfl⟩

/-- Import-tasks directive with a target and a non-empty apply mapping. -/
def tW4 : TaskState :=
  { action := "import_tasks",
    args := [("_raw_params", .vstr "x.yml"), ("apply", .vdict [("tags", .vlist [.vstr "a"])])] }

/-- Import-tasks directive with a non-empty apply mapping and no target -
exactly the claim's example input. -/
def tX4 : TaskState :=
  { action := "import_tasks", args := [("apply", .vdict [("tags", .vlist [.vstr "a"])])] }

/-- C4 (amended): for every include directive whose action is not the
dynamic include-tasks action, if `args['apply']` is present and non-empty
and the earlier checks pass (bad-options check and a non-empty include
target), then `check_options` fails with an `InvalidOption` error naming
`apply`. -/
theorem claim_C4 (order : List String → List String) (t : TaskState) (v : Value)
    (hpass : badOpts t.args = [] ∨ t.action ∉ ACTION_ALL_PROPER_INCLUDE_IMPORT_TASKS)
    (htarget : truthyOpt (Args.get t.args "_raw_params") = true ∨
      (truthyOpt (Args.get t.args "_raw_params") = false ∧
        truthyOpt (Args.get t.args "file") = true))
    (happly : Args.get t.args "apply" = some v)
    (hv : v.truthy = true)
    (hact : t.action ∉ ACTION_INCLUDE_TASKS) :
    check_options order t = .error (.invalidOption t.action ["apply"]) := by
  have hcontains : ACTION_INCLUDE_TASKS.contains t.action = false :=
    contains_eq_false_of_not_mem hact
  rcases htarget with hr | ⟨hr, hf⟩
  · have hstate : check_options_state order t = (t, some (.invalidOption t.action ["apply"])) := by
      rw [check_options_state_of_pass hpass, normalize_of_truthy_raw hr]
      show (t, check_apply t) = _
      rw [check_apply_invalid happly hv hcontains]
    unfold check_options
    rw [hstate]
  · cases hgf : Args.get t.args "file" with
    | none => rw [hgf] at hf; exact absurd hf (by decide)
    | some vf =>
      have hvf : vf.truthy = true := by rw [hgf] at hf; simpa [truthyOpt] using hf
      have happly2 : Args.get (Args.set (Args.erase t.args "file") "_raw_params" vf) "apply"
          = some v := by
        rw [Args.get_set_ne _ _ (by decide), Args.get_erase_ne _ (by decide)]
        exact happly
      have hstate : check_options_state order t =
          ({ t with args := Args.set (Args.erase t.args "file") "_raw_params" vf },
            some (.invalidOption t.action ["apply"])) := by
        rw [check_options_state_of_pass hpass, normalize_of_file hr hgf hvf]
        show ({ t with args := Args.set (Args.erase t.args "file") "_raw_params" vf },
          check_apply { t with args := Args.set (Args.erase t.args "file") "_raw_params" vf }) = _
        rw [@check_apply_invalid
          { t with args := Args.set (Args.erase t.args "file") "_raw_params" vf } v
          happly2 hv hcontains]
      unfold check_options
      rw [hstate]

/-- C4 witness: a concrete run of `claim_C4` on `tW4`. -/
theorem claim_C4_witness :
    check_options id tW4 = .error (.invalidOption "import_tasks" ["apply"]) :=
  claim_C4 id tW4 (.vdict [("tags", .vlist [.vstr "a"])]) (Or.inl rfl) (Or.inl rfl)
    rfl rfl (by decide)

/-- C4 counterexample: on the claim's own example input - action
"import_tasks" with `args` exactly `apply: tags: [a]` and no target - the
source fails with the missing-target error of the earlier step, not with an
`InvalidOption` naming `apply`. -/
theorem claim_C4_counterexample :
    check_options id tX4 = .error (.missingTarget "import_tasks") ∧
    Err.missingTarget "import_tasks" ≠ Err.invalidOption "import_tasks" ["apply"] :=
  ⟨rfl, by decide⟩

/-- Include-tasks directive with a target and a string-valued apply. -/
def tW5 : TaskState :=
  { action := "include_tasks",
    args := [("_raw_params", .vstr "x"), ("apply", .vstr "not-a-mapping")] }

/-- Import-tasks directive with a target and a string-valued apply. -/
def tX5 : TaskState :=
  { action := "import_tasks",
    args := [("_raw_params", .vstr "x"), ("apply", .vstr "not-a-mapping")] }

/-- C5 (amended): for every include directive that passes the earlier
checks, if `args['apply']` is supplied but is not a mapping, and either the
action is the dynamic include-tasks action or the supplied value is falsy,
then `check_options` fails with the `TypeMismatch` error reporting the
actual type received; a truthy non-mapping `apply` on any other action hits
the `InvalidOption` branch first (see the counterexample). -/
theorem claim_C5 (order : List String → List String) (t : TaskState) (v : Value)
    (hpass : badOpts t.args = [] ∨ t.action ∉ ACTION_ALL_PROPER_INCLUDE_IMPORT_TASKS)
    (htarget : truthyOpt (Args.get t.args "_raw_params") = true ∨
      (truthyOpt (Args.get t.args "_raw_params") = false ∧
        truthyOpt (Args.get t.args "file") = true))
    (happly : Args.get t.args "apply" = some v)
    (hnotdict : v.isDict = false)
    (hok : t.action ∈ ACTION_INCLUDE_TASKS ∨ v.truthy = false) :
    check_options order t = .error (.typeMismatch (pyTypeName v)) := by
  have hok2 : ACTION_INCLUDE_TASKS.contains t.action = true ∨ v.truthy = false := by
    rcases hok with h | h
    · exact Or.inl (List.elem_eq_true_of_mem h)
    · exact Or.inr h
  rcases htarget with hr | ⟨hr, hf⟩
  · have hstate : check_options_state order t = (t, some (.typeMismatch (pyTypeName v))) := by
      rw [check_options_state_of_pass hpass, normalize_of_truthy_raw hr]
      show (t, check_apply t) = _
      rw [check_apply_mismatch happly hnotdict hok2]
    unfold check_options
    rw [hstate]
  · cases hgf : Args.get t.args "file" with
    | none => rw [hgf] at hf; exact absurd hf (by decide)
    | some vf =>
      have hvf : vf.truthy = true := by rw [hgf] at hf; simpa [truthyOpt] using hf
      have happly2 : Args.get (Args.set (Args.erase t.args "file") "_raw_params" vf) "apply"
          = some v := by
        rw [Args.get_set_ne _ _ (by decide), Args.get_erase_ne _ (by decide)]
        exact happly
      have hstate : check_options_state order t =
          ({ t with args := Args.set (Args.erase t.args "file") "_raw_params" vf },
            some (.typeMismatch (pyTypeName v))) := by
        rw [check_options_state_of_pass hpass, normalize_of_file hr hgf hvf]
        show ({ t with args := Args.set (Args.erase t.args "file") "_raw_params" vf },
          check_apply { t with args := Args.set (Args.erase t.args "file") "_raw_params" vf }) = _
        rw [@check_apply_mismatch
          { t with args := Args.set (Args.erase t.args "file") "_raw_params" vf } v
          happly2 hnotdict hok2]
      unfold check_options
      rw [hstate]

/-- C5 witness: a concrete run of `claim_C5` on `tW5`. -/
theorem claim_C5_witness :
    check_options id tW5 = .error (.typeMismatch (pyTypeName (.vstr "not-a-mapping"))) :=
  claim_C5 id tW5 (.vstr "not-a-mapping") (Or.inl rfl) (Or.inl rfl) rfl rfl
    (Or.inl (by decide))

/-- C5 counterexample: the claim as stated covers every directive with a
non-mapping `apply`, but on a static action ("import_tasks") a truthy
non-mapping `apply` hits the `InvalidOption` branch of line 82 first, so
the reported error is not a `TypeMismatch`. -/
theorem claim_C5_counterexample :
    check_options id tX5 = .error (.invalidOption "import_tasks" ["apply"]) ∧
    Err.invalidOption "import_tasks" ["apply"] ≠ Err.typeMismatch "str" :=
  ⟨rfl, by decide⟩

/-- Include-tasks directive with a target, a non-empty apply mapping and
distinctive back-reference identifiers. -/
def tW6 : TaskState :=
  { action := "include_tasks",
    args := [("_raw_params", .vstr "x"), ("apply", .vdict [("tags", .vlist [.vstr "a"])])],
    parent_play := 7, role := 3, variable_manager := 4, loader := 5 }

/-- Apply mapping carried by `tW6`. -/
def dW6 : List (String × Value) := [("tags", Value.vlist [Value.vstr "a"])]

/-- Include-tasks directive whose `apply` is present but the empty dict. -/
def tX6 : TaskState := { action := "include_tasks", args := [("apply", .vdict [])] }

/-- C6 (amended): when `args['apply']` is a non-empty mapping,
`build_parent_block` removes `apply` from args, injects an empty task list
under the popped mapping and returns a new Block built from it, parented to
the enclosing block's play, with the directive as its generating include
and the directive's role, variable manager and loader; when `apply` is
absent or the empty mapping, it returns the directive itself (identity,
no new container), though a present-but-empty `apply` entry is still
popped from `args`. -/
theorem claim_C6 (t : TaskState) (d : List (String × Value))
    (hnd : (Args.keys t.args).Nodup) :
    (Args.get t.args "apply" = some (.vdict d) → d ≠ [] →
      build_parent_block t =
        ({ t with args := Args.erase t.args "apply" },
          .block
            { data := Args.set d "block" (.vlist [])
              play := t.parent_play
              task_include := { t with args := Args.erase t.args "apply" }
              role := t.role
              variable_manager := t.variable_manager
              loader := t.loader }) ∧
      "apply" ∉ Args.keys ({ t with args := Args.erase t.args "apply" }).args) ∧
    ((Args.get t.args "apply" = none ∨ Args.get t.args "apply" = some (.vdict [])) →
      (build_parent_block t).2 = .selfRef ∧
      (build_parent_block t).1 = { t with args := Args.erase t.args "apply" }) := by
  constructor
  · intro ha hd
    have htr : (Value.vdict d).truthy = true := by
      cases d with
      | nil => exact absurd rfl hd
      | cons p rest => rfl
    constructor
    · simp [build_parent_block, Args.pop, ha, htr]
    · intro hmem
      exact Args.not_mem_keys_erase hnd hmem
  · intro h
    rcases h with h | h
    · constructor <;> simp [build_parent_block, Args.pop, h, Value.truthy, List.isEmpty]
    · constructor <;> simp [build_parent_block, Args.pop, h, Value.truthy, List.isEmpty]

/-- C6 witness: a concrete run of `claim_C6` on `tW6`. -/
theorem claim_C6_witness :
    (Args.get tW6.args "apply" = some (.vdict dW6) → dW6 ≠ [] →
      build_parent_block tW6 =
        ({ tW6 with args := Args.erase tW6.args "apply" },
          .block
            { data := Args.set dW6 "block" (.vlist [])
              play := tW6.parent_play
              task_include := { tW6 with args := Args.erase tW6.args "apply" }
              role := tW6.role
              variable_manager := tW6.variable_manager
              loader := tW6.loader }) ∧
      "apply" ∉ Args.keys ({ tW6 with args := Args.erase tW6.args "apply" }).args) ∧
    ((Args.get tW6.args "apply" = none ∨ Args.get tW6.args "apply" = some (.vdict [])) →
      (build_parent_block tW6).2 = .selfRef ∧
      (build_parent_block tW6).1 = { tW6 with args := Args.erase tW6.args "apply" }) :=
  claim_C6 tW6 dW6 (by decide)

/-- C6 counterexample: the claim as stated says a directive with an empty
`apply` is returned unchanged, but on `tX6` (whose `apply` is the empty
dict) the pop of line 146 still removes the `apply` entry, so the returned
directive's state differs from the original. -/
theorem claim_C6_counterexample :
    (build_parent_block tX6).2 = .selfRef ∧
    (build_parent_block tX6).1.args = [] ∧
    tX6.args = [("apply", .vdict [])] ∧
    (build_parent_block tX6).1 ≠ tX6 := by
  refine ⟨rfl, rfl, rfl, ?_⟩
  intro h
  have h2 : ([] : Args) = [("apply", Value.vdict [])] := congrArg TaskState.args h
  exact List.noConfusion h2

theorem preprocess_scan_relaxed (ds : Args) (l : List String) :
    preprocess_scan false ds l =
      .ok (l.filter (fun k => !((Args.get ds k).getD .vnone).isSentinel
        && ACTION_ALL_INCLUDE_ROLE_TASKS.contains (action_of ds))) := by
  induction l with
  | nil => rfl
  | cons k ks ih =>
    unfold preprocess_scan
    rw [ih, List.filter_cons]
    cases h : (!((Args.get ds k).getD Value.vnone).isSentinel
        && ACTION_ALL_INCLUDE_ROLE_TASKS.contains (action_of ds)) with
    | true => rfl
    | false => rfl

theorem preprocess_scan_strict (ds : Args) (l : List String)
    (h : ∃ k, k ∈ l ∧ (!((Args.get ds k).getD .vnone).isSentinel
      && ACTION_ALL_INCLUDE_ROLE_TASKS.contains (action_of ds)) = true) :
    ∃ k, k ∈ l ∧ (!((Args.get ds k).getD .vnone).isSentinel
      && ACTION_ALL_INCLUDE_ROLE_TASKS.contains (action_of ds)) = true ∧
      preprocess_scan true ds l = .error (.invalidAttribute k "TaskInclude") := by
  induction l with
  | nil =>
    rcases h with ⟨k, hk, _⟩
    cases hk
  | cons a as ih =>
    by_cases hc : (!((Args.get ds a).getD .vnone).isSentinel
        && ACTION_ALL_INCLUDE_ROLE_TASKS.contains (action_of ds)) = true
    · refine ⟨a, List.mem_cons_self a as, hc, ?_⟩
      unfold preprocess_scan
      rw [hc]
      rfl
    · rcases h with ⟨k, hk, hck⟩
      rcases List.mem_cons.mp hk with rfl | hk2
      · exact absurd hck hc
      · rcases ih ⟨k, hk2, hck⟩ with ⟨k2, hk2m, hck2, heq⟩
        refine ⟨k2, List.mem_cons_of_mem _ hk2m, hck2, ?_⟩
        unfold preprocess_scan
        rw [eq_false_of_ne_true hc]
        exact heq

/-- Raw include-role data with one extraneous top-level keyword. -/
def dsW8 : Args := [("action", Value.vstr "include_role"), ("foo", Value.vstr "bar")]

/-- C8: for every top-level key of the raw data outside
VALID_INCLUDE_KEYWORDS whose value is not the unset Sentinel, when the
action is in the include-role family: under strict policy
`preprocess_data` fails with an `InvalidAttribute` naming an offending key
and the entity kind, and under relaxed policy it succeeds, emits exactly
one warning per offending key (a duplicate-free permutation of the
offending-key set) and returns the data with those keys still present
(verbatim, nothing dropped). -/
theorem claim_C8 (order : List String → List String) (ds : Args)
    (horder : ∀ l, List.Perm (order l) l)
    (hnd : (Args.keys ds).Nodup)
    (ha : action_of ds ∈ ACTION_ALL_INCLUDE_ROLE_TASKS) :
    ((diff_keys ds).filter (fun k => !((Args.get ds k).getD .vnone).isSentinel) ≠ [] →
      ∃ k, k ∈ (diff_keys ds).filter (fun k => !((Args.get ds k).getD .vnone).isSentinel) ∧
        preprocess_data true order ds = .error (.invalidAttribute k "TaskInclude")) ∧
    (∃ ws, preprocess_data false order ds = .ok (ds, ws) ∧
      List.Perm ws
        ((diff_keys ds).filter (fun k => !((Args.get ds k).getD .vnone).isSentinel)) ∧
      ws.Nodup) := by
  have hcon : ACTION_ALL_INCLUDE_ROLE_TASKS.contains (action_of ds) = true :=
    List.elem_eq_true_of_mem ha
  have hcond : ∀ k, (!((Args.get ds k).getD .vnone).isSentinel
      && ACTION_ALL_INCLUDE_ROLE_TASKS.contains (action_of ds))
      = (!((Args.get ds k).getD .vnone).isSentinel) := by
    intro k
    rw [hcon, Bool.and_true]
  constructor
  · intro hne
    have hmem : ∃ k, k ∈ order (diff_keys ds) ∧ (!((Args.get ds k).getD .vnone).isSentinel
        && ACTION_ALL_INCLUDE_ROLE_TASKS.contains (action_of ds)) = true := by
      obtain ⟨k, hk⟩ := List.exists_mem_of_ne_nil _ hne
      have hk2 := List.mem_filter.mp hk
      exact ⟨k, ((horder _).mem_iff).mpr hk2.1, by rw [hcond]; exact hk2.2⟩
    obtain ⟨k2, hk2m, hck2, heq⟩ := preprocess_scan_strict ds (order (diff_keys ds)) hmem
    refine ⟨k2, ?_, ?_⟩
    · apply List.mem_filter.mpr
      refine ⟨((horder _).mem_iff).mp hk2m, ?_⟩
      rw [hcond] at hck2
      exact hck2
    · unfold preprocess_data
      rw [heq]
      rfl
  · have hs := preprocess_scan_relaxed ds (order (diff_keys ds))
    have hfe : (order (diff_keys ds)).filter (fun k => !((Args.get ds k).getD .vnone).isSentinel
          && ACTION_ALL_INCLUDE_ROLE_TASKS.contains (action_of ds))
        = (order (diff_keys ds)).filter
            (fun k => !((Args.get ds k).getD .vnone).isSentinel) :=
      List.filter_congr (fun k _ => hcond k)
    refine ⟨(order (diff_keys ds)).filter
        (fun k => !((Args.get ds k).getD .vnone).isSentinel), ?_, ?_, ?_⟩
    · unfold preprocess_data
      rw [hs, hfe]
      rfl
    · exact List.Perm.filter _ (horder _)
    · have h1 : (diff_keys ds).Nodup := hnd.filter _
      have h2 : (order (diff_keys ds)).Nodup := ((horder _).nodup_iff).mpr h1
      exact h2.filter _

/-- C8 witness: a concrete run of `claim_C8` on `dsW8`. -/
theorem claim_C8_witness :
    ((diff_keys dsW8).filter (fun k => !((Args.get dsW8 k).getD .vnone).isSentinel) ≠ [] →
      ∃ k, k ∈ (diff_keys dsW8).filter
          (fun k => !((Args.get dsW8 k).getD .vnone).isSentinel) ∧
        preprocess_data true id dsW8 = .error (.invalidAttribute k "TaskInclude")) ∧
    (∃ ws, preprocess_data false id dsW8 = .ok (dsW8, ws) ∧
      List.Perm ws
        ((diff_keys dsW8).filter (fun k => !((Args.get dsW8 k).getD .vnone).isSentinel)) ∧
      ws.Nodup) :=
  claim_C8 id dsW8 (fun l => List.Perm.refl l) (by decide) (by decide)

theorem check_apply_ok {t : TaskState}
    (h1 : ((Args.get t.args "apply").getD (.vdict [])).isDict = true)
    (h2 : ((Args.get t.args "apply").getD (.vdict [])).truthy = true →
      t.action ∈ ACTION_INCLUDE_TASKS) :
    check_apply t = none := by
  unfold check_apply
  by_cases htr : ((Args.get t.args "apply").getD (Value.vdict [])).truthy = true
  · have hcon : ACTION_INCLUDE_TASKS.contains t.action = true :=
      List.elem_eq_true_of_mem (h2 htr)
    simp [htr, hcon, h1, h2 htr]
  · have htr2 : ((Args.get t.args "apply").getD (Value.vdict [])).truthy = false :=
      eq_false_of_ne_true htr
    simp [htr2, h1]

/-- Include-tasks directive with only valid arg keys, a `file` target and a
well-formed apply mapping. -/
def tW9 : TaskState :=
  { action := "include_tasks",
    args := [("file", .vstr "x.yml"), ("apply", .vdict [("tags", .vlist [.vstr "a"])])] }

/-- Include-tasks directive with empty args. -/
def t9a : TaskState := { action := "include_tasks", args := [] }

/-- Import-tasks directive with a target and a non-empty apply mapping,
only valid keys. -/
def t9b : TaskState :=
  { action := "import_tasks",
    args := [("_raw_params", .vstr "x"), ("apply", .vdict [("tags", .vlist [.vstr "a"])])] }

/-- Include-tasks directive with a target and a string apply, only valid
keys. -/
def t9c : TaskState :=
  { action := "include_tasks", args := [("_raw_params", .vstr "x"), ("apply", .vstr "s")] }

/-- C9 (amended): for every include/import-tasks-family directive whose
args contain only keys from VALID_ARGS, the bad-options check passes, and
`check_options` succeeds provided additionally a non-empty include target
is present (`_raw_params`, or `file` to fold into it) and `apply`, when
supplied, is a mapping that is non-empty only on the dynamic include-tasks
action. -/
theorem claim_C9 (order : List String → List String) (t : TaskState)
    (hvalid : ∀ k ∈ Args.keys t.args, k ∈ VALID_ARGS)
    (htarget : truthyOpt (Args.get t.args "_raw_params") = true ∨
      (truthyOpt (Args.get t.args "_raw_params") = false ∧
        truthyOpt (Args.get t.args "file") = true))
    (happly : ((Args.get t.args "apply").getD (.vdict [])).isDict = true)
    (happly2 : ((Args.get t.args "apply").getD (.vdict [])).truthy = true →
      t.action ∈ ACTION_INCLUDE_TASKS) :
    ∃ t2, check_options order t = .ok t2 := by
  have hpass : badOpts t.args = [] ∨ t.action ∉ ACTION_ALL_PROPER_INCLUDE_IMPORT_TASKS :=
    Or.inl (badOpts_eq_nil_of_valid hvalid)
  rcases htarget with hr | ⟨hr, hf⟩
  · have hstate : check_options_state order t = (t, none) := by
      rw [check_options_state_of_pass hpass, normalize_of_truthy_raw hr]
      show (t, check_apply t) = _
      rw [check_apply_ok happly happly2]
    refine ⟨t, ?_⟩
    unfold check_options
    rw [hstate]
  · cases hgf : Args.get t.args "file" with
    | none => rw [hgf] at hf; exact absurd hf (by decide)
    | some vf =>
      have hvf : vf.truthy = true := by rw [hgf] at hf; simpa [truthyOpt] using hf
      have hpre : Args.get (Args.set (Args.erase t.args "file") "_raw_params" vf) "apply"
          = Args.get t.args "apply" := by
        rw [Args.get_set_ne _ _ (by decide), Args.get_erase_ne _ (by decide)]
      have h1 : ((Args.get (Args.set (Args.erase t.args "file") "_raw_params" vf) "apply").getD
          (Value.vdict [])).isDict = true := by
        rw [hpre]
        exact happly
      have h2 : ((Args.get (Args.set (Args.erase t.args "file") "_raw_params" vf) "apply").getD
          (Value.vdict [])).truthy = true → t.action ∈ ACTION_INCLUDE_TASKS := by
        intro htr
        rw [hpre] at htr
        exact happly2 htr
      have hstate : check_options_state order t =
          ({ t with args := Args.set (Args.erase t.args "file") "_raw_params" vf }, none) := by
        rw [check_options_state_of_pass hpass, normalize_of_file hr hgf hvf]
        show ({ t with args := Args.set (Args.erase t.args "file") "_raw_params" vf },
          check_apply { t with args := Args.set (Args.erase t.args "file") "_raw_params" vf }) = _
        rw [@check_apply_ok
          { t with args := Args.set (Args.erase t.args "file") "_raw_params" vf } h1 h2]
      refine ⟨{ t with args := Args.set (Args.erase t.args "file") "_raw_params" vf }, ?_⟩
      unfold check_options
      rw [hstate]

/-- C9 witness: a concrete run of `claim_C9` on `tW9`. -/
theorem claim_C9_witness : ∃ t2, check_options id tW9 = .ok t2 :=
  claim_C9 id tW9 (by decide) (Or.inr ⟨rfl, rfl⟩) rfl (by decide)

/-- C9 counterexample: the claim as stated promises success for any
directive whose args keys all lie in VALID_ARGS, but `t9a` (no target),
`t9b` (non-empty apply on the static action) and `t9c` (non-mapping apply)
all use only valid keys and all fail. -/
theorem claim_C9_counterexample :
    ((Args.keys t9a.args).all (fun k => VALID_ARGS.contains k) = true ∧
      check_options id t9a = .error (.missingTarget "include_tasks")) ∧
    ((Args.keys t9b.args).all (fun k => VALID_ARGS.contains k) = true ∧
      check_options id t9b = .error (.invalidOption "import_tasks" ["apply"])) ∧
    ((Args.keys t9c.args).all (fun k => VALID_ARGS.contains k) = true ∧
      check_options id t9c = .error (.typeMismatch "str")) :=
  ⟨⟨rfl, rfl⟩, ⟨rfl, rfl⟩, ⟨rfl, rfl⟩⟩

theorem normalize_err_inv {t t2 : TaskState} {e : Err}
    (h : normalize_raw_params t = (t2, some e)) :
    truthyOpt (Args.get t.args "_raw_params") = false ∧
    t2 = { t with
      args := Args.set (Args.erase t.args "file") "_raw_params"
        ((Args.get t.args "file").getD .vnone) } ∧
    ((Args.get t.args "file").getD .vnone).truthy = false ∧
    e = .missingTarget t.action := by
  unfold normalize_raw_params at h
  by_cases hr : truthyOpt (Args.get t.args "_raw_params") = true
  · simp [hr] at h
  · have hr2 : truthyOpt (Args.get t.args "_raw_params") = false := eq_false_of_ne_true hr
    by_cases hnr : ((Args.get t.args "file").getD Value.vnone).truthy = true
    · simp [hr2, Args.pop, hnr] at h
    · have hnr2 : ((Args.get t.args "file").getD Value.vnone).truthy = false :=
        eq_false_of_ne_true hnr
      simp [hr2, Args.pop, hnr2] at h
      obtain ⟨h1, h2⟩ := h
      exact ⟨hr2, h1.symm, hnr2, h2.symm⟩

/-- Include-tasks directive with empty args, used to exercise the
missing-target mutation. -/
def tW10 : TaskState := { action := "include_tasks", args := [] }

/-- Include-tasks directive whose `file` value is the falsy empty string. -/
def tX10 : TaskState := { action := "include_tasks", args := [("file", .vstr "")] }

/-- C10 (amended): when `check_options` fails with the MissingTarget
("No file specified") error, the entity's args have already been mutated by
the failed call: the key `file` (if present) has been popped and
`args['_raw_params']` has been set to the popped falsy value (`None` when
`file` was absent, otherwise the falsy `file` value itself) - validation
failure is not atomic with respect to the entity's state. -/
theorem claim_C10 (order : List String → List String) (t : TaskState) (a : String)
    (hnd : (Args.keys t.args).Nodup)
    (herr : (check_options_state order t).2 = some (.missingTarget a)) :
    "file" ∉ Args.keys ((check_options_state order t).1).args ∧
    Args.get ((check_options_state order t).1).args "_raw_params" =
      some ((Args.get t.args "file").getD .vnone) ∧
    ((Args.get t.args "file").getD .vnone).truthy = false := by
  by_cases hc : (!(badOpts t.args).isEmpty
      && ACTION_ALL_PROPER_INCLUDE_IMPORT_TASKS.contains t.action) = true
  · exfalso
    obtain ⟨h1, h2⟩ := Bool.and_eq_true_iff.mp hc
    have hbadne : ¬ badOpts t.args = [] := by
      intro hz
      rw [hz] at h1
      simp at h1
    have hmem : t.action ∈ ACTION_ALL_PROPER_INCLUDE_IMPORT_TASKS :=
      List.mem_of_elem_eq_true h2
    unfold check_options_state at herr
    simp [hbadne, hmem] at herr
  · have hcf : (!(badOpts t.args).isEmpty
        && ACTION_ALL_PROPER_INCLUDE_IMPORT_TASKS.contains t.action) = false :=
      eq_false_of_ne_true hc
    have hc2 : badOpts t.args = [] ∨ t.action ∉ ACTION_ALL_PROPER_INCLUDE_IMPORT_TASKS := by
      rcases Bool.and_eq_false_iff.mp hcf with h1 | h2
      · refine Or.inl ?_
        have h3 : (badOpts t.args).isEmpty = true := by simpa using h1
        exact List.isEmpty_iff.mp h3
      · exact Or.inr (not_mem_of_contains_eq_false h2)
    rw [check_options_state_of_pass hc2] at herr ⊢
    cases hn : normalize_raw_params t with
    | mk t2 e =>
      cases e with
      | none =>
        exfalso
        rw [hn] at herr
        exact absurd herr check_apply_ne_missing
      | some e0 =>
        obtain ⟨hr2, ht2, hnr, he⟩ := normalize_err_inv hn
        subst ht2
        refine ⟨?_, ?_, hnr⟩
        · intro hmem
          rcases Args.mem_keys_set hmem with h | h
          · exact absurd h (by decide)
          · exact Args.not_mem_keys_erase hnd h
        · exact Args.get_set_self _ _ _

/-- C10 witness: a concrete run of `claim_C10` on `tW10`. -/
theorem claim_C10_witness :
    "file" ∉ Args.keys ((check_options_state id tW10).1).args ∧
    Args.get ((check_options_state id tW10).1).args "_raw_params" =
      some ((Args.get tW10.args "file").getD .vnone) ∧
    ((Args.get tW10.args "file").getD .vnone).truthy = false :=
  claim_C10 id tW10 "include_tasks" (by decide) rfl

/-- C10 counterexample: the claim as stated says `_raw_params` is set to
`None`, but when `file` is present with a falsy value (`tX10`, empty
string) the failing call sets `_raw_params` to that falsy value, not to
`None`. -/
theorem claim_C10_counterexample :
    (check_options_state id tX10).2 = some (.missingTarget "include_tasks") ∧
    Args.get ((check_options_state id tX10).1).args "_raw_params" = some (.vstr "") ∧
    Value.vstr "" ≠ Value.vnone := by
  refine ⟨rfl, rfl, ?_⟩
  intro h
  exact Value.noConfusion h

end TaskIncludeVerif
